import Mathlib

/-
Verification of the movie-recommendation client
(src/AI_movie_recommendations_openrouter.py) against its specification.
The Python module is shallowly embedded below: JSON values are an
inductive type, the HTTP layer is a parameter mapping the request that
gets sent to its outcome, and every fallible operation returns an Option
so that the try/except of the source, which collapses every exception to
None, is modelled by a total function.
-/

namespace MovieRec

/-- JSON values as Python's json module yields them: null, booleans,
numbers, strings, arrays, and objects rendered as association lists. -/
inductive Json where
  | null : Json
  | bool (b : Bool) : Json
  | num (n : Int) : Json
  | str (s : String) : Json
  | arr (elems : List Json) : Json
  | obj (fields : List (String × Json)) : Json

/-- Python subscripting data[key]: the value under key in a dict, and a
caught exception (KeyError on a missing key, TypeError on a non-dict)
otherwise, modelled as none. -/
def Json.getKey? (j : Json) (key : String) : Option Json :=
  match j with
  | .obj fields => fields.lookup key
  | _ => none

/-- Python subscripting data[i]: the i-th element of a list, and a caught
exception (IndexError, or TypeError on a non-list) otherwise, modelled as
none. -/
def Json.getIdx? (j : Json) (i : Nat) : Option Json :=
  match j with
  | .arr elems => elems.get? i
  | _ => none

/-- One role-tagged message of the chat-completion request body
(lines 40-55 of the source). -/
structure ChatMessage where
  role : String
  content : String

/-- The JSON payload of the chat-completion request (lines 38-58). -/
structure Payload where
  model : String
  messages : List ChatMessage
  temperature : ℚ
  max_tokens : Nat

/-- One HTTP request as handed to requests.post (lines 61-66): the verb,
the url, the JSON payload and the timeout argument. -/
structure ApiRequest where
  method : String
  url : String
  payload : Payload
  timeout : Nat

/-- Outcome of the requests.post call: a network-level exception, or a
response carrying a status code, the parse of the body as JSON (none when
response.json() raises on a malformed body) and the raw body text. -/
inductive HttpResponse where
  | networkError : HttpResponse
  | response (status_code : Nat) (jsonBody : Option Json) (text : String) : HttpResponse

/-- The fixed endpoint url assigned in __init__ (line 15). -/
def api_url : String := "https://openrouter.ai/api/v1/chat/completions"

/-- The fixed model identifier of the payload (line 39). -/
def model_id : String := "tngtech/deepseek-r1t-chimera:free"

/-- The fixed system instruction of the payload (lines 43-49), byte for
byte, including the trailing space of its first line. -/
def system_content : String :=
  "Ты - эксперт по рекомендации фильмов. \nТвоя задача - предлагать пользователю фильмы, основываясь на его предпочтениях и вкусах.\nРекомендуй 3-5 фильмов с кратким описанием каждого (1-2 предложения).\nСтруктура ответа:\n1. Название фильма (Год) - Краткое описание\n2. Название фильма (Год) - Краткое описание\nи так далее."

/-- The fixed intro of the prompt built on line 86. -/
def base_intro : String := "Пользователь ищет фильмы по следующим предпочтениям: "

/-- The fixed liked-movies line prefixing the joined titles (line 89). -/
def liked_intro : String := "\n\nПользователю понравились следующие фильмы: "

/-- The fixed steering phrase appended after the liked titles (line 90). -/
def liked_suffix_str : String :=
  "\n\nПожалуйста, порекомендуй фильмы, похожие по стилю и тематике на понравившиеся фильмы, учитывая его предпочтения."

/-- The fixed suffix appended when no liked movies are given (line 92). -/
def no_liked_suffix_str : String :=
  "\n\nПожалуйста, порекомендуй фильмы, соответствующие этим предпочтениям."

/-- Python truthiness of an optional string: None and the empty string are
falsy (the `if mood` and `if time_of_day` guards on lines 108 and 125). -/
def truthyStr (s : Option String) : Bool :=
  match s with
  | none => false
  | some t => !(t == "")

/-- Shallow embedding of _create_recommendation_prompt (lines 84-94). The
guard on line 88 is `liked_movies and len(liked_movies) > 0`: None
short-circuits to the else branch, and the empty list is falsy, so only a
non-empty list takes the liked-movies branch. -/
def _create_recommendation_prompt (user_preferences : String)
    (liked_movies : Option (List String)) : String :=
  let prompt := base_intro ++ user_preferences
  match liked_movies with
  | some l =>
    if 0 < l.length then
      prompt ++ liked_intro ++ String.intercalate ", " l ++ liked_suffix_str
    else
      prompt ++ no_liked_suffix_str
  | none => prompt ++ no_liked_suffix_str

/-- The exact request get_movie_recommendations sends (lines 38-66): one
POST to the fixed url carrying the payload of lines 38-58 with timeout 30. -/
def movie_request (user_preferences : String)
    (liked_movies : Option (List String)) : ApiRequest :=
  { method := "POST"
    url := api_url
    payload :=
      { model := model_id
        messages :=
          [ { role := "system", content := system_content },
            { role := "user",
              content := _create_recommendation_prompt user_preferences liked_movies } ]
        temperature := 0.7
        max_tokens := 1000 }
    timeout := 30 }

/-- Shallow embedding of get_movie_recommendations (lines 22-82). The HTTP
layer is the parameter post, mapping the request that is sent to its
outcome. The try/except of lines 33-82 turns every exception — the network
error raised by requests.post, the parse error raised by response.json(),
and any KeyError/IndexError/TypeError raised while indexing
data['choices'][0]['message']['content'] — into a returned None, and the
non-200 branch of lines 75-78 returns None as well; the Python function
returns whatever JSON value sits at that path, so the result is an
Option Json. -/
def get_movie_recommendations (post : ApiRequest → HttpResponse)
    (user_preferences : String) (liked_movies : Option (List String)) : Option Json :=
  match post (movie_request user_preferences liked_movies) with
  | .networkError => none
  | .response status_code jsonBody _ =>
    if status_code = 200 then
      match jsonBody with
      | none => none
      | some data =>
        (data.getKey? "choices").bind fun choices =>
        (choices.getIdx? 0).bind fun c0 =>
        (c0.getKey? "message").bind fun msg =>
        msg.getKey? "content"
    else
      none

/-- The preference text built by get_genre_based_recommendations
(lines 107-109). -/
def genre_preferences_text (genre : String) (mood : Option String) : String :=
  let preferences := "жанр: " ++ genre
  if truthyStr mood then preferences ++ ", настроение: " ++ mood.getD ""
  else preferences

/-- Shallow embedding of get_genre_based_recommendations (lines 96-111):
it builds the preference text and delegates with the default
liked_movies=None. -/
def get_genre_based_recommendations (post : ApiRequest → HttpResponse)
    (genre : String) (mood : Option String) : Option Json :=
  get_movie_recommendations post (genre_preferences_text genre mood) none

/-- The preference text built by get_mood_based_recommendations
(lines 124-126). -/
def mood_preferences_text (mood : String) (time_of_day : Option String) : String :=
  let preferences := "настроение: " ++ mood
  if truthyStr time_of_day then preferences ++ ", время просмотра: " ++ time_of_day.getD ""
  else preferences

/-- Shallow embedding of get_mood_based_recommendations (lines 113-128):
it builds the preference text and delegates with the default
liked_movies=None. -/
def get_mood_based_recommendations (post : ApiRequest → HttpResponse)
    (mood : String) (time_of_day : Option String) : Option Json :=
  get_movie_recommendations post (mood_preferences_text mood time_of_day) none

/-- One iteration's worth of user input for interactive_mode
(lines 144-202): the dispatched command together with the follow-up line
reads of the chosen branch, each already stripped as the source strips
them (and the command line lowercased). A free-form line that matches no
command is freeText. -/
inductive Command where
  | stop : Command
  | genreCmd (genre : String) (mood : String) : Command
  | moodCmd (mood : String) (time : String) : Command
  | preferencesCmd (preferences : String) (liked_input : String) : Command
  | freeText (text : String) : Command

/-- Observable effect of one loop iteration: the value of the loop-local
liked_movies list after the iteration, and the (user_preferences,
liked_movies) argument pair the branch passes to
get_movie_recommendations, when it calls it. -/
structure IterationEffect where
  likedAfter : List String
  callArgs : Option (String × Option (List String))

/-- Shallow embedding of one iteration of the while-loop of
interactive_mode (lines 144-202), as a function of the loop-local
liked_movies list (initialised to [] on line 142) and the iteration's
input. The genre and mood branches turn an empty follow-up answer into
None (lines 154, 168) and delegate through the wrappers, which pass no
liked list; the preferences branch comma-splits and strips the liked
input into its own local list (line 183) and passes that list, or None
when it is empty or absent (line 186); the fallback branch passes the
loop-local liked_movies list itself (line 196). No branch assigns to
liked_movies. -/
def interactive_iteration (liked_movies : List String) (cmd : Command) : IterationEffect :=
  match cmd with
  | .stop => { likedAfter := liked_movies, callArgs := none }
  | .genreCmd genre mood =>
    let moodOpt : Option String := if mood = "" then none else some mood
    { likedAfter := liked_movies
      callArgs := some (genre_preferences_text genre moodOpt, none) }
  | .moodCmd mood time =>
    let timeOpt : Option String := if time = "" then none else some time
    { likedAfter := liked_movies
      callArgs := some (mood_preferences_text mood timeOpt, none) }
  | .preferencesCmd preferences liked_input =>
    let liked_movies_list : Option (List String) :=
      if liked_input = "" then none
      else some ((liked_input.splitOn ",").map String.trim)
    { likedAfter := liked_movies
      callArgs := some (preferences,
        match liked_movies_list with
        | some [] => none
        | other => other) }
  | .freeText text =>
    { likedAfter := liked_movies, callArgs := some (text, some liked_movies) }

/-- The loop-local liked_movies list after interactive_mode has processed
a sequence of iterations, starting from the empty list of line 142. -/
def liked_after_run (cmds : List Command) : List String :=
  cmds.foldl (fun liked cmd => (interactive_iteration liked cmd).likedAfter) []

/-- The literal token assigned to api_token on line 214 of main. -/
def hardcoded_token : String :=
  "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"

/-- Shallow embedding of the token acquisition of main (lines 211-229).
The parameter env_token stands for the token the process environment or
configuration could supply and prompted for the line the user would type
at the interactive prompt of line 219. The source never consults the
environment (no os.environ read exists despite the comment on line 213):
line 214 assigns the hardcoded literal, so env_token is ignored, and the
prompting branch of lines 216-223 runs only when that literal is falsy.
The result is the token the client is constructed with, or none when main
returns early on line 223. -/
def main_acquire_token (env_token : Option String) (prompted : String) : Option String :=
  let api_token := hardcoded_token
  if api_token = "" then
    let entered := prompted.trim
    if entered = "" then none else some entered
  else
    some api_token

/-- The string s ends with the string t when s is some string followed by
t. -/
def endsWithText (s t : String) : Prop := ∃ pre : String, s = pre ++ t

/-- The JSON body of shape with a choices array whose first element holds
a message object whose content is the string s — the success shape of the
spec. -/
def success_body (s : String) : Json :=
  .obj [("choices", .arr [.obj [("message", .obj [("content", .str s)])]])]

/-- Helper: folding the loop iterations over any starting liked_movies
list leaves it unchanged, since no branch assigns to it. -/
theorem foldl_liked_const (cmds : List Command) (init : List String) :
    cmds.foldl (fun liked cmd => (interactive_iteration liked cmd).likedAfter) init = init := by
  induction cmds generalizing init with
  | nil => rfl
  | cons c cs ih =>
    rw [List.foldl_cons]
    have h : (interactive_iteration init c).likedAfter = init := by
      cases c <;> rfl
    rw [h]
    exact ih init

/-- C1: for every HTTP 200 response whose JSON body has the shape of a
choices array whose first element carries a message whose content is the
string s, get_movie_recommendations returns exactly that string s. -/
theorem C1_success_returns_first_choice_content
    (post : ApiRequest → HttpResponse) (user_preferences : String)
    (liked_movies : Option (List String)) (s : String) (raw : String)
    (h : post (movie_request user_preferences liked_movies)
      = .response 200 (some (success_body s)) raw) :
    get_movie_recommendations post user_preferences liked_movies = some (.str s) := by
  unfold get_movie_recommendations
  rw [h]
  rfl

/-- Witness for C1 at the body of the spec example, whose content is
"A (2020) - desc". -/
theorem C1_witness :
    get_movie_recommendations
      (fun _ => .response 200 (some (success_body "A (2020) - desc")) "")
      "боевики" none = some (.str "A (2020) - desc") :=
  C1_success_returns_first_choice_content _ "боевики" none "A (2020) - desc" "" rfl

/-- C2: every failure of get_movie_recommendations — a network error, a
non-200 status, a malformed JSON body (response.json() raising), or a 200
body lacking the choices field — yields none; the embedded function is
total, so no exception escapes the boundary. -/
theorem C2_failures_return_none
    (post : ApiRequest → HttpResponse) (user_preferences : String)
    (liked_movies : Option (List String)) :
    (post (movie_request user_preferences liked_movies) = .networkError →
      get_movie_recommendations post user_preferences liked_movies = none) ∧
    (∀ status jsonBody raw,
      post (movie_request user_preferences liked_movies) = .response status jsonBody raw →
      status ≠ 200 →
      get_movie_recommendations post user_preferences liked_movies = none) ∧
    (∀ raw, post (movie_request user_preferences liked_movies) = .response 200 none raw →
      get_movie_recommendations post user_preferences liked_movies = none) ∧
    (∀ data raw,
      post (movie_request user_preferences liked_movies) = .response 200 (some data) raw →
      data.getKey? "choices" = none →
      get_movie_recommendations post user_preferences liked_movies = none) := by
  refine ⟨?_, ?_, ?_, ?_⟩
  · intro h
    unfold get_movie_recommendations
    rw [h]
  · intro status jsonBody raw h hne
    unfold get_movie_recommendations
    rw [h]
    simp [hne]
  · intro raw h
    unfold get_movie_recommendations
    rw [h]
    rfl
  · intro data raw h hch
    unfold get_movie_recommendations
    rw [h]
    simp [hch]

/-- Witness for C2: one concrete instance of each failure kind — network
error, status 404, malformed body, and a 200 object without choices — all
returning none. -/
theorem C2_witness :
    get_movie_recommendations (fun _ => .networkError) "драма" none = none ∧
    get_movie_recommendations (fun _ => .response 404 none "err") "драма" none = none ∧
    get_movie_recommendations (fun _ => .response 200 none "not json") "драма" none = none ∧
    get_movie_recommendations (fun _ => .response 200 (some (.obj [])) "empty") "драма" none = none :=
  ⟨(C2_failures_return_none _ "драма" none).1 rfl,
   (C2_failures_return_none _ "драма" none).2.1 404 none "err" rfl (by decide),
   (C2_failures_return_none _ "драма" none).2.2.1 "not json" rfl,
   (C2_failures_return_none _ "драма" none).2.2.2 (.obj []) "empty" rfl rfl⟩

/-- C3 counterexample: at preference text "комедия" with no liked movies
the constructed prompt does not end with the English string
"\n\nPlease recommend movies matching these preferences." — the source
appends a Russian sentence instead. -/
theorem C3_counterexample :
    ¬ endsWithText (_create_recommendation_prompt "комедия" none)
      "\n\nPlease recommend movies matching these preferences." := by
  rintro ⟨pre, h⟩
  have hd : (_create_recommendation_prompt "комедия" none).data
      = pre.data ++ ("\n\nPlease recommend movies matching these preferences.").data := by
    rw [← String.data_append, ← h]
  have hx : 'P' ∈ (_create_recommendation_prompt "комедия" none).data := by
    rw [hd]
    exact List.mem_append_right _ (by decide)
  exact absurd hx (by decide)

/-- C3 (amended): for every non-empty preference text and an absent
liked-movies list, the constructed prompt ends with the exact appended
string "\n\nПожалуйста, порекомендуй фильмы, соответствующие этим
предпочтениям." — the fixed recommend-matching-preferences suffix as the
source writes it, in Russian. -/
theorem C3_prompt_ends_with_no_liked_suffix
    (user_preferences : String) (_hne : user_preferences ≠ "") :
    endsWithText (_create_recommendation_prompt user_preferences none)
      "\n\nПожалуйста, порекомендуй фильмы, соответствующие этим предпочтениям." :=
  ⟨base_intro ++ user_preferences, rfl⟩

/-- Witness for C3 at preference text "комедия". -/
theorem C3_witness :
    "комедия" ≠ "" ∧
    endsWithText (_create_recommendation_prompt "комедия" none)
      "\n\nПожалуйста, порекомендуй фильмы, соответствующие этим предпочтениям." :=
  ⟨by decide, C3_prompt_ends_with_no_liked_suffix "комедия" (by decide)⟩

/-- C4: for every non-empty liked-movies list the constructed prompt
contains the comma-joined titles in input order, unmodified, introduced by
the fixed liked-movies line and followed by the
similar-in-style-and-theme steering phrase. -/
theorem C4_prompt_contains_joined_liked_movies
    (user_preferences : String) (liked : List String) (hne : liked ≠ []) :
    _create_recommendation_prompt user_preferences (some liked) =
      base_intro ++ user_preferences ++ liked_intro
        ++ String.intercalate ", " liked ++ liked_suffix_str := by
  unfold _create_recommendation_prompt
  have hpos : 0 < liked.length := List.length_pos.mpr hne
  simp [hpos]

set_option maxRecDepth 8000 in
/-- Witness for C4 at two liked titles, with the join evaluated. -/
theorem C4_witness :
    (["Матрица", "Интерстеллар"] : List String) ≠ [] ∧
    _create_recommendation_prompt "фантастика" (some ["Матрица", "Интерстеллар"]) =
      "Пользователь ищет фильмы по следующим предпочтениям: фантастика\n\nПользователю понравились следующие фильмы: Матрица, Интерстеллар\n\nПожалуйста, порекомендуй фильмы, похожие по стилю и тематике на понравившиеся фильмы, учитывая его предпочтения." :=
  ⟨by decide,
   (C4_prompt_contains_joined_liked_movies "фантастика" ["Матрица", "Интерстеллар"]
     (by decide)).trans (by decide)⟩

/-- C5 counterexample: at genre "комедия" with mood None the genre wrapper
builds the preference text "жанр: комедия", not the English
"genre: комедия" the claim states. -/
theorem C5_counterexample :
    genre_preferences_text "комедия" none ≠ "genre: комедия" := by decide

/-- C5 (amended): the genre wrapper builds preference text exactly
"жанр: X" when mood is None and exactly "жанр: X, настроение: Y" when a
non-empty mood Y is set; analogously the mood wrapper builds exactly
"настроение: X" and "настроение: X, время просмотра: Y"; both wrappers
delegate that text to get_movie_recommendations with no liked-movies
list. -/
theorem C5_wrapper_preference_texts
    (post : ApiRequest → HttpResponse) (x y : String) (hy : y ≠ "") :
    genre_preferences_text x none = "жанр: " ++ x ∧
    genre_preferences_text x (some y) = "жанр: " ++ x ++ ", настроение: " ++ y ∧
    mood_preferences_text x none = "настроение: " ++ x ∧
    mood_preferences_text x (some y) = "настроение: " ++ x ++ ", время просмотра: " ++ y ∧
    get_genre_based_recommendations post x (some y) =
      get_movie_recommendations post (genre_preferences_text x (some y)) none ∧
    get_mood_based_recommendations post x (some y) =
      get_movie_recommendations post (mood_preferences_text x (some y)) none := by
  refine ⟨rfl, ?_, rfl, ?_, rfl, rfl⟩
  · simp [genre_preferences_text, truthyStr, hy]
  · simp [mood_preferences_text, truthyStr, hy]

/-- Witness for C5 at genre "комедия" and mood "вечер". -/
theorem C5_witness :
    "вечер" ≠ "" ∧
    genre_preferences_text "комедия" (some "вечер") = "жанр: комедия, настроение: вечер" ∧
    mood_preferences_text "грустное" (some "вечер") = "настроение: грустное, время просмотра: вечер" :=
  ⟨by decide,
   ((C5_wrapper_preference_texts (fun _ => HttpResponse.networkError) "комедия" "вечер"
     (by decide)).2.1).trans (by decide),
   ((C5_wrapper_preference_texts (fun _ => HttpResponse.networkError) "грустное" "вечер"
     (by decide)).2.2.2.1).trans (by decide)⟩

/-- C6: every invocation sends a single synchronous POST to the one fixed
chat-completion endpoint; the body carries exactly the two messages — the
fixed system instruction, then the constructed user prompt — the fixed
model identifier, temperature 0.7 and max_tokens 1000, and the call uses
timeout 30; the result depends on the outcome of that single request
only. -/
theorem C6_request_shape
    (user_preferences : String) (liked_movies : Option (List String)) :
    (movie_request user_preferences liked_movies).method = "POST" ∧
    (movie_request user_preferences liked_movies).url = api_url ∧
    (movie_request user_preferences liked_movies).payload.model = model_id ∧
    (movie_request user_preferences liked_movies).payload.messages =
      [ { role := "system", content := system_content },
        { role := "user",
          content := _create_recommendation_prompt user_preferences liked_movies } ] ∧
    (movie_request user_preferences liked_movies).payload.temperature = 0.7 ∧
    (movie_request user_preferences liked_movies).payload.max_tokens = 1000 ∧
    (movie_request user_preferences liked_movies).timeout = 30 ∧
    (∀ post post2 : ApiRequest → HttpResponse,
      post (movie_request user_preferences liked_movies) =
        post2 (movie_request user_preferences liked_movies) →
      get_movie_recommendations post user_preferences liked_movies =
        get_movie_recommendations post2 user_preferences liked_movies) := by
  refine ⟨rfl, rfl, rfl, rfl, rfl, rfl, rfl, ?_⟩
  intro post post2 h
  unfold get_movie_recommendations
  rw [h]

/-- Witness for C6 at preference text "триллер". -/
theorem C6_witness :
    (movie_request "триллер" none).method = "POST" ∧
    (movie_request "триллер" none).timeout = 30 ∧
    get_movie_recommendations (fun _ => HttpResponse.networkError) "триллер" none =
      get_movie_recommendations (fun _ => HttpResponse.networkError) "триллер" none :=
  ⟨(C6_request_shape "триллер" none).1,
   (C6_request_shape "триллер" none).2.2.2.2.2.2.1,
   (C6_request_shape "триллер" none).2.2.2.2.2.2.2 _ _ rfl⟩

/-- C7: the token acquisition of main ignores the environment entirely and
always selects the hardcoded literal of line 214, so the interactive
prompt of lines 216-223 is unreachable: whatever token the environment
supplies and whatever line the user would type, the client is constructed
with the hardcoded token. This contradicts the claim (and the comment on
line 213 of the source) that the token is taken from the environment with
an interactive prompt fallback. -/
theorem C7_main_ignores_environment
    (env_token : Option String) (prompted : String) :
    main_acquire_token env_token prompted = some hardcoded_token ∧
    hardcoded_token ≠ "" ∧
    main_acquire_token (some "TOKEN-FROM-ENV") "TYPED-TOKEN" ≠ some "TOKEN-FROM-ENV" := by
  refine ⟨?_, by decide, by decide⟩
  unfold main_acquire_token
  rw [if_neg (by decide : ¬ (hardcoded_token = ""))]

/-- C8 counterexample: processing the free-text fallback input "боевик"
from the initial empty liked_movies list leaves the list empty — the
fallback branch does not append to it, contradicting the claim that
liked_movies is accumulated (appended to) there. -/
theorem C8_counterexample :
    (interactive_iteration [] (Command.freeText "боевик")).likedAfter = [] ∧
    ¬ 0 < (interactive_iteration [] (Command.freeText "боевик")).likedAfter.length :=
  ⟨rfl, by decide⟩

/-- C8 (amended): no branch of the interactive loop ever writes into the
loop-local liked_movies list — the free-text fallback branch only passes
it along unchanged and the preferences command path builds a separate
comma-split list — so after any sequence of iterations the list still
holds its initial empty value, and the fallback branch always passes the
empty list to get_movie_recommendations. -/
theorem C8_liked_movies_never_written :
    (∀ liked cmd, (interactive_iteration liked cmd).likedAfter = liked) ∧
    (∀ cmds, liked_after_run cmds = []) ∧
    (∀ cmds text,
      (interactive_iteration (liked_after_run cmds) (Command.freeText text)).callArgs =
        some (text, some [])) := by
  have hstep : ∀ liked cmd, (interactive_iteration liked cmd).likedAfter = liked := by
    intro liked cmd
    cases cmd <;> rfl
  have hrun : ∀ cmds, liked_after_run cmds = [] :=
    fun cmds => foldl_liked_const cmds []
  refine ⟨hstep, hrun, fun cmds text => ?_⟩
  rw [hrun]
  rfl

/-- C9: the prompt built with an empty liked-movies list equals the prompt
built with an absent one — both take the no-liked-movies branch, since the
guard on line 88 is falsy for both None and the empty list. -/
theorem C9_empty_liked_equals_none (user_preferences : String) :
    _create_recommendation_prompt user_preferences (some []) =
      _create_recommendation_prompt user_preferences none := rfl

/-- C10: both wrappers invoke get_movie_recommendations with no
liked-movies list, so the prompt they cause to be built goes through the
no-liked branch — it is the base prompt followed directly by the
matching-preferences suffix, with no liked-movies section in between —
and it ends with the no-liked-movies suffix. -/
theorem C10_wrappers_pass_no_liked
    (post : ApiRequest → HttpResponse) (x : String) (opt : Option String) :
    get_genre_based_recommendations post x opt =
      get_movie_recommendations post (genre_preferences_text x opt) none ∧
    get_mood_based_recommendations post x opt =
      get_movie_recommendations post (mood_preferences_text x opt) none ∧
    _create_recommendation_prompt (genre_preferences_text x opt) none =
      base_intro ++ genre_preferences_text x opt ++ no_liked_suffix_str ∧
    _create_recommendation_prompt (mood_preferences_text x opt) none =
      base_intro ++ mood_preferences_text x opt ++ no_liked_suffix_str ∧
    endsWithText (_create_recommendation_prompt (genre_preferences_text x opt) none)
      no_liked_suffix_str ∧
    endsWithText (_create_recommendation_prompt (mood_preferences_text x opt) none)
      no_liked_suffix_str :=
  ⟨rfl, rfl, rfl, rfl, ⟨_, rfl⟩, ⟨_, rfl⟩⟩

end MovieRec
